import Mathlib

/-!
Verification of the host-element property reconciler in
`src/packages/inferno/src/DOM/props.ts`.

The embedding is effect-trace based: every reconciler function is translated
into a Lean function that, given its inputs and the current host-node state,
returns the ordered list of host mutations (and collaborator calls) the
source code performs.  JavaScript values are modelled by the inductive
`JSVal`; `===`/`!==` on them is modelled by structural (in)equality, which
coincides with JavaScript semantics on the primitives the theorems use and
is implied by referential equality on objects.
-/

/-- Style values: a CSS sub-object maps keys to numbers or strings (or a
missing/null slot, which JavaScript lookup reports as undefined). -/
inductive StyleV where
  | null
  | undef
  | num (n : Int)
  | str (s : String)
  deriving DecidableEq, Repr

/-- JavaScript values as they occur in this module: primitives, plain
functions (identified by an id), functions carrying a truthy `wrapped`
marker (installed by the form-control wrapper subsystem), the closure
produced by `createLinkEvent`, linked-event objects `\x7b event, data \x7d`,
raw-HTML payloads `\x7b __html \x7d`, and structured style objects. -/
inductive JSVal where
  | null
  | undef
  | bool (b : Bool)
  | num (n : Int)
  | str (s : String)
  | func (id : Nat)
  | wrappedFunc (id : Nat)
  | closure (linkEvent : JSVal) (captured : JSVal)
  | linkObj (event : JSVal) (data : JSVal)
  | htmlObj (html : JSVal)
  | style (entries : List (String × StyleV))
  deriving DecidableEq, Repr

/-- JavaScript truthiness. -/
def truthy : JSVal → Bool
  | JSVal.null => false
  | JSVal.undef => false
  | JSVal.bool b => b
  | JSVal.num n => n != 0
  | JSVal.str s => s != ""
  | _ => true

/-- Predicate `isNullOrUndef` from inferno-shared. -/
def isNullOrUndef : JSVal → Bool
  | JSVal.null => true
  | JSVal.undef => true
  | _ => false

/-- Predicate `isNull` from inferno-shared. -/
def isNull : JSVal → Bool
  | JSVal.null => true
  | _ => false

/-- Predicate `isFunction` from inferno-shared. -/
def isFunction : JSVal → Bool
  | JSVal.func _ => true
  | JSVal.wrappedFunc _ => true
  | JSVal.closure _ _ => true
  | _ => false

/-- Predicate `isString` from inferno-shared. -/
def isString : JSVal → Bool
  | JSVal.str _ => true
  | _ => false

/-- Predicate `isNumber` from inferno-shared. -/
def isNumber : JSVal → Bool
  | JSVal.num _ => true
  | _ => false

/-- Numeric test on style values. -/
def isNumberS : StyleV → Bool
  | StyleV.num _ => true
  | _ => false

/-- Null-or-undefined test on style values. -/
def isNullOrUndefS : StyleV → Bool
  | StyleV.null => true
  | StyleV.undef => true
  | _ => false

/-- Property read `v.f` for the object shapes this module inspects; any
other read yields undefined.  A `wrappedFunc` is a function whose `wrapped`
field is truthy. -/
def getField : JSVal → String → JSVal
  | JSVal.linkObj ev _, "event" => ev
  | JSVal.linkObj _ d, "data" => d
  | JSVal.htmlObj h, "__html" => h
  | JSVal.wrappedFunc _, "wrapped" => JSVal.bool true
  | _, _ => JSVal.undef

/-- JavaScript `a && b`. -/
def jsAnd (a b : JSVal) : JSVal :=
  if truthy a then b else a

/-- JavaScript `a || b`. -/
def jsOr (a b : JSVal) : JSVal :=
  if truthy a then a else b

/-- The expression `(v && v.__html) || ''` from the raw-HTML branch. -/
def htmlOf (v : JSVal) : JSVal :=
  jsOr (jsAnd v (getField v "__html")) (JSVal.str "")

namespace VNodeFlags

/-- Modelled from the spec: the flag bit that marks a node as a select
element (the `inferno-vnode-flags` package is not among the provided
sources; only the bit's distinctness matters). -/
def SelectElement : Nat := 64

end VNodeFlags

namespace ChildFlags

/-- Modelled from the spec: marker for an invalidated (cleared) child
representation. -/
def HasInvalidChildren : Nat := 1

/-- Modelled from the spec: marker for a single recorded child node. -/
def HasVNodeChildren : Nat := 2

/-- Modelled from the spec: marker for multiple recorded children (union of
the keyed and non-keyed bits). -/
def MultipleChildren : Nat := 12

end ChildFlags

/-- The slice of a virtual node that `patchProp` touches: the recorded
shape of the prior child representation and an opaque handle to those
children. -/
structure VNode where
  childFlags : Nat
  children : Nat
  deriving DecidableEq, Repr

/-- One host mutation or collaborator call, in the order the source
performs them.  `setProp` is a live-property write `dom[name] = v`;
`handleEvent` is the call into the event-delegation subsystem;
`unmountAll`/`unmountOne` are the child-representation release calls;
`setVNodeChildrenNull`/`setVNodeChildFlags` are the virtual-node mutations
in the raw-HTML branch; `devWarn` abstracts the development-build
diagnostic `throwError` (emitted only outside production builds). -/
inductive Effect where
  | setProp (name : String) (value : JSVal)
  | setAttr (name : String) (value : JSVal)
  | setAttrNS (ns : String) (name : String) (value : JSVal)
  | removeAttr (name : String)
  | handleEvent (name : String) (value : JSVal)
  | setStyleKey (key : String) (value : StyleV)
  | setCssText (value : JSVal)
  | setInnerHTML (value : JSVal)
  | setTextContent (value : String)
  | unmountAll (children : Nat)
  | unmountOne (children : Nat)
  | setVNodeChildrenNull
  | setVNodeChildFlags (flags : Nat)
  | devWarn (name : String)
  deriving DecidableEq, Repr

/-- The observable state of the live host node that the reconciler reads
and writes. -/
structure DomState where
  props : String → JSVal
  attrs : String → Option JSVal
  nsAttrs : String → Option (String × JSVal)
  styleKeys : String → StyleV
  cssText : JSVal
  innerHTML : JSVal
  textContent : String

/-- A host node in its initial state: every property undefined, no
attributes, empty style and content. -/
def emptyDom : DomState :=
  { props := fun _ => JSVal.undef
    attrs := fun _ => none
    nsAttrs := fun _ => none
    styleKeys := fun _ => StyleV.undef
    cssText := JSVal.str ""
    innerHTML := JSVal.str ""
    textContent := "" }

/-- Pointwise update of a string-indexed function. -/
def updateFn (f : String → JSVal) (k : String) (v : JSVal) : String → JSVal :=
  fun x => if x = k then v else f x

/-- Apply one effect to the host-node state (virtual-node mutations and
collaborator calls do not change the node itself). -/
def applyEffect (s : DomState) : Effect → DomState
  | Effect.setProp name v => { s with props := updateFn s.props name v }
  | Effect.setAttr name v =>
      { s with attrs := fun x => if x = name then some v else s.attrs x }
  | Effect.setAttrNS ns name v =>
      { s with nsAttrs := fun x => if x = name then some (ns, v) else s.nsAttrs x }
  | Effect.removeAttr name =>
      { s with attrs := fun x => if x = name then none else s.attrs x }
  | Effect.setStyleKey key v =>
      { s with styleKeys := fun x => if x = key then v else s.styleKeys x }
  | Effect.setCssText v => { s with cssText := v }
  | Effect.setInnerHTML v => { s with innerHTML := v }
  | Effect.setTextContent t => { s with textContent := t }
  | _ => s

/-- Apply a trace of effects left to right. -/
def applyEffects (s : DomState) (es : List Effect) : DomState :=
  es.foldl applyEffect s

/-- The classification tables imported from `./constants` (that module is
not among the provided sources, so the reconciler is parametric in them). -/
structure Tables where
  booleanProps : List String
  strictProps : List String
  skipProps : List String
  delegatedEvents : List String
  isUnitlessNumber : List String
  namespaces : List (String × String)

/-- Modelled from the spec: a concrete instance of the classification
tables of `./constants` (not among the provided sources), following the
spec's description of the five categories and the names it cites
explicitly (`autoFocus` boolean-classified, `value` strict-assigned with
read-before-write, the skip set of internal bookkeeping keys, delegated
click/key/mouse events, a unitless allow-set). -/
def constantsTables : Tables :=
  { booleanProps := ["autoFocus", "checked", "controls", "disabled",
      "hidden", "loop", "multiple", "muted", "readOnly", "required", "selected"]
    strictProps := ["value", "volume", "defaultChecked"]
    skipProps := ["children", "childrenType", "className", "defaultValue", "ref", "key"]
    delegatedEvents := ["onClick", "onDblClick", "onKeyDown", "onKeyPress",
      "onKeyUp", "onMouseDown", "onMouseMove", "onMouseUp", "onSubmit"]
    isUnitlessNumber := ["opacity", "zIndex", "order", "flex", "lineHeight"]
    namespaces := [("xlink:href", "http://www.w3.org/1999/xlink"),
      ("xml:lang", "http://www.w3.org/XML/1998/namespace")] }

/-- Function `isAttrAnEvent` from props.ts: `attr[0] === 'o' && attr[1] === 'n'`. -/
def isAttrAnEvent (attr : String) : Bool :=
  match attr.toList with
  | 'o' :: 'n' :: _ => true
  | _ => false

/-- JavaScript `String.prototype.toLowerCase` (character-wise lowering). -/
def jsToLower (s : String) : String :=
  String.mk (s.data.map Char.toLower)

/-- Function `createLinkEvent` from props.ts: the closure capturing the
link-event handler and the linked-event object. -/
def createLinkEvent (linkEvent nextValue : JSVal) : JSVal :=
  JSVal.closure linkEvent nextValue

/-- One recorded call made when a handler value is invoked: the callee and
its argument list. -/
structure Call where
  callee : JSVal
  args : List JSVal
  deriving DecidableEq, Repr

/-- Invocation semantics of a handler stored in an event slot.  The
`createLinkEvent` closure body is `linkEvent(nextValue.data, e)`; a plain
function is called with the event alone. -/
def invoke : JSVal → JSVal → List Call
  | JSVal.closure linkEvent captured, e =>
      [⟨linkEvent, [getField captured "data", e]⟩]
  | JSVal.func id, e => [⟨JSVal.func id, [e]⟩]
  | JSVal.wrappedFunc id, e => [⟨JSVal.wrappedFunc id, [e]⟩]
  | _, _ => []

/-- Function `patchEvent` from props.ts. -/
def patchEvent (name : String) (lastValue nextValue : JSVal) (dom : DomState) :
    List Effect :=
  let nameLowerCase := jsToLower name
  if ¬ isFunction nextValue ∧ ¬ isNullOrUndef nextValue then
    let linkEvent := getField nextValue "event"
    if truthy linkEvent ∧ isFunction linkEvent then
      [Effect.setProp nameLowerCase (createLinkEvent linkEvent nextValue)]
    else
      [Effect.devWarn name]
  else
    let domEvent := dom.props nameLowerCase
    if ¬ truthy domEvent ∨ ¬ truthy (getField domEvent "wrapped") then
      [Effect.setProp nameLowerCase nextValue]
    else
      []

/-- The style object recorded in a value (anything else enumerates no
keys). -/
def styleEntries : JSVal → List (String × StyleV)
  | JSVal.style m => m
  | _ => []

/-- Lookup of a key in a style object; a missing key reads as undefined. -/
def lookupStyle (entries : List (String × StyleV)) (k : String) : StyleV :=
  match entries.lookup k with
  | some v => v
  | none => StyleV.undef

/-- The per-key write rule of `patchStyle`:
`!isNumber(value) || isUnitlessNumber.has(style) ? value : value + 'px'`. -/
def styleEntryValue (unitless : List String) (key : String) (v : StyleV) : StyleV :=
  if ¬ isNumberS v ∨ unitless.contains key then v
  else
    match v with
    | StyleV.num n => StyleV.str (toString n ++ "px")
    | _ => v

/-- Function `patchStyle` from props.ts, parametric in the
`isUnitlessNumber` table. -/
def patchStyle (unitless : List String) (lastAttrValue nextAttrValue : JSVal)
    (dom : DomState) : List Effect :=
  if isString nextAttrValue then
    [Effect.setCssText nextAttrValue]
  else if ¬ isNullOrUndef lastAttrValue ∧ ¬ isString lastAttrValue then
    (styleEntries nextAttrValue).filterMap
      (fun p =>
        if p.2 ≠ lookupStyle (styleEntries lastAttrValue) p.1 then
          some (Effect.setStyleKey p.1 (styleEntryValue unitless p.1 p.2))
        else none)
    ++ (styleEntries lastAttrValue).filterMap
      (fun p =>
        if isNullOrUndefS (lookupStyle (styleEntries nextAttrValue) p.1) then
          some (Effect.setStyleKey p.1 (StyleV.str ""))
        else none)
  else
    (styleEntries nextAttrValue).map
      (fun p => Effect.setStyleKey p.1 (styleEntryValue unitless p.1 p.2))

/-- Modelled from the spec: the host equality check between the node's
live raw content and a candidate string (`utils/innerhtml.ts` is not among
the provided sources). -/
def isSameInnerHTML (dom : DomState) (next : JSVal) : Bool :=
  next = dom.innerHTML

/-- Function `removeProp` from props.ts, parametric in the classification
tables. -/
def removeProp (t : Tables) (prop : String) (lastValue : JSVal)
    (dom : DomState) (nextFlags : Nat) : List Effect :=
  if prop = "value" then
    [Effect.setProp "value"
      (if nextFlags &&& VNodeFlags.SelectElement ≠ 0 then JSVal.null
       else JSVal.str "")]
  else if prop = "style" then
    [Effect.removeAttr "style"]
  else if t.delegatedEvents.contains prop then
    [Effect.handleEvent prop JSVal.null]
  else if isAttrAnEvent prop then
    patchEvent prop lastValue JSVal.null dom
  else if prop = "dangerouslySetInnerHTML" then
    [Effect.setTextContent ""]
  else
    [Effect.removeAttr prop]

/-- Function `patchProp` from props.ts, parametric in the classification
tables. -/
def patchProp (t : Tables) (prop : String) (lastValue nextValue : JSVal)
    (dom : DomState) (isSVG : Bool) (hasControlledValue : Bool)
    (lastVNode : Option VNode) : List Effect :=
  if lastValue ≠ nextValue then
    if t.delegatedEvents.contains prop then
      [Effect.handleEvent prop nextValue]
    else if t.skipProps.contains prop ∨ (hasControlledValue ∧ prop = "value") then
      []
    else if t.booleanProps.contains prop then
      [Effect.setProp (if prop = "autoFocus" then jsToLower prop else prop)
        (JSVal.bool (truthy nextValue))]
    else if t.strictProps.contains prop then
      let value := if isNullOrUndef nextValue then JSVal.str "" else nextValue
      if dom.props prop ≠ value then [Effect.setProp prop value] else []
    else if isAttrAnEvent prop then
      patchEvent prop lastValue nextValue dom
    else if isNullOrUndef nextValue then
      [Effect.removeAttr prop]
    else if prop = "style" then
      patchStyle t.isUnitlessNumber lastValue nextValue dom
    else if prop = "dangerouslySetInnerHTML" then
      let lastHtml := htmlOf lastValue
      let nextHtml := htmlOf nextValue
      if lastHtml ≠ nextHtml then
        if ¬ isNullOrUndef nextHtml ∧ ¬ isSameInnerHTML dom nextHtml then
          (match lastVNode with
           | some vn =>
              (if vn.childFlags &&& ChildFlags.MultipleChildren ≠ 0 then
                 [Effect.unmountAll vn.children]
               else if vn.childFlags &&& ChildFlags.HasVNodeChildren ≠ 0 then
                 [Effect.unmountOne vn.children]
               else [])
              ++ [Effect.setVNodeChildrenNull,
                  Effect.setVNodeChildFlags ChildFlags.HasInvalidChildren]
           | none => [])
          ++ [Effect.setInnerHTML nextHtml]
        else []
      else []
    else
      if isSVG ∧ (t.namespaces.lookup prop).isSome then
        [Effect.setAttrNS ((t.namespaces.lookup prop).getD "") prop nextValue]
      else
        [Effect.setAttr prop nextValue]
  else
    []

/-- The number of live-property writes in a trace (the "underlying host
property write" count of the strict-assignment idempotence property). -/
def countWrites (es : List Effect) : Nat :=
  es.countP (fun e =>
    match e with
    | Effect.setProp _ _ => true
    | _ => false)

/-! Helper lemmas. -/

theorem truthy_not_nullundef (v : JSVal) (h : truthy v = true) :
    isNullOrUndef v = false := by
  cases v <;> simp_all [truthy, isNullOrUndef]

theorem isNullOrUndef_htmlOf (v : JSVal) : isNullOrUndef (htmlOf v) = false := by
  unfold htmlOf jsOr
  split
  · exact truthy_not_nullundef _ (by assumption)
  · rfl

theorem props_after_setProp (dom : DomState) (k : String) (v : JSVal) :
    (applyEffects dom [Effect.setProp k v]).props k = v := by
  simp [applyEffects, applyEffect, updateFn]

/-- Claim C9: `patchProp` invoked with `lastValue` referentially equal to
`nextValue` performs no mutation of any kind — no effect is emitted for any
property name, node state, or flag combination; the guard applies before
any classification. -/
theorem c9_identical_values_no_mutation (t : Tables) (prop : String)
    (v : JSVal) (dom : DomState) (isSVG hasControlledValue : Bool)
    (lastVNode : Option VNode) :
    patchProp t prop v v dom isSVG hasControlledValue lastVNode = [] := by
  simp [patchProp]

/-- Claim C8: for every linked-event value with handler `h` and data `d`,
`patchEvent` installs the `createLinkEvent` wrapper, and that wrapper,
invoked with an event `e`, makes exactly one call, namely `h(d, e)` (two
arguments, data first), not `h(e)`. -/
theorem c8_link_event_invocation (name : String) (lastValue : JSVal)
    (h : Nat) (d : JSVal) (dom : DomState) (e : JSVal) :
    patchEvent name lastValue (JSVal.linkObj (JSVal.func h) d) dom
      = [Effect.setProp (jsToLower name)
          (createLinkEvent (JSVal.func h) (JSVal.linkObj (JSVal.func h) d))]
    ∧ invoke (createLinkEvent (JSVal.func h) (JSVal.linkObj (JSVal.func h) d)) e
      = [⟨JSVal.func h, [d, e]⟩] := by
  constructor
  · simp [patchEvent, isFunction, isNullOrUndef, getField, truthy]
  · simp [invoke, createLinkEvent, getField]

/-- Claim C7: `removeProp` for the property name `value` writes the live
`value` property: `null` when the node's flags mark it a select element,
and the empty string for every other element kind. -/
theorem c7_remove_value_by_flags (t : Tables) (lastValue : JSVal)
    (dom : DomState) (flags : Nat) :
    (flags &&& VNodeFlags.SelectElement ≠ 0 →
      removeProp t "value" lastValue dom flags
        = [Effect.setProp "value" JSVal.null])
    ∧ (flags &&& VNodeFlags.SelectElement = 0 →
      removeProp t "value" lastValue dom flags
        = [Effect.setProp "value" (JSVal.str "")]) := by
  constructor <;> intro hf <;> simp [removeProp, hf]

/-- Witness for C7 at concrete flag values. -/
theorem c7_remove_value_by_flags_witness :
    removeProp constantsTables "value" JSVal.null emptyDom VNodeFlags.SelectElement
      = [Effect.setProp "value" JSVal.null]
    ∧ removeProp constantsTables "value" JSVal.null emptyDom 0
      = [Effect.setProp "value" (JSVal.str "")] :=
  ⟨(c7_remove_value_by_flags constantsTables JSVal.null emptyDom
      VNodeFlags.SelectElement).1 (by decide),
   (c7_remove_value_by_flags constantsTables JSVal.null emptyDom 0).2 (by decide)⟩

/-- Claim C6: the style unit rule — a numeric value for a key in the
unitless allow-set is written unchanged, a numeric value for any other key
is written with "px" appended, and a non-numeric value is always written
unchanged. -/
theorem c6_style_unit_rule (unitless : List String) (key : String) (n : Int)
    (v : StyleV) (dom : DomState) :
    (unitless.contains key = true →
      patchStyle unitless JSVal.null (JSVal.style [(key, StyleV.num n)]) dom
        = [Effect.setStyleKey key (StyleV.num n)])
    ∧ (unitless.contains key = false →
      patchStyle unitless JSVal.null (JSVal.style [(key, StyleV.num n)]) dom
        = [Effect.setStyleKey key (StyleV.str (toString n ++ "px"))])
    ∧ (isNumberS v = false →
      patchStyle unitless JSVal.null (JSVal.style [(key, v)]) dom
        = [Effect.setStyleKey key v]) := by
  refine ⟨fun hu => ?_, fun hu => ?_, fun hv => ?_⟩
  · simp only [patchStyle, isString, isNullOrUndef, styleEntries,
      styleEntryValue, isNumberS, hu]
    simp
    simpa using hu
  · simp only [patchStyle, isString, isNullOrUndef, styleEntries,
      styleEntryValue, isNumberS, hu]
    simp
    simpa using hu
  · cases v <;> simp_all [patchStyle, isString, isNullOrUndef, styleEntries,
      styleEntryValue, isNumberS]

/-- Witness for C6: numeric 10 on a unitless key yields 10, on another key
yields "10px", and a non-numeric value passes through. -/
theorem c6_style_unit_rule_witness :
    patchStyle ["opacity"] JSVal.null (JSVal.style [("opacity", StyleV.num 10)]) emptyDom
      = [Effect.setStyleKey "opacity" (StyleV.num 10)]
    ∧ patchStyle ["opacity"] JSVal.null (JSVal.style [("width", StyleV.num 10)]) emptyDom
      = [Effect.setStyleKey "width" (StyleV.str "10px")]
    ∧ patchStyle ["opacity"] JSVal.null (JSVal.style [("width", StyleV.str "auto")]) emptyDom
      = [Effect.setStyleKey "width" (StyleV.str "auto")] :=
  ⟨(c6_style_unit_rule ["opacity"] "opacity" 10 StyleV.null emptyDom).1 (by decide),
   (c6_style_unit_rule ["opacity"] "width" 10 StyleV.null emptyDom).2.1 (by decide),
   (c6_style_unit_rule ["opacity"] "width" 10 (StyleV.str "auto") emptyDom).2.2 (by decide)⟩

/-- Claim C5: structured-to-structured style reconciliation with previous
`\x7b a: "1px", b: "2px" \x7d` and next `\x7b a: "1px", c: "3px" \x7d`
writes "3px" to `c`, the empty string to `b`, and performs no write at all
to key `a`. -/
theorem c5_style_delta_writes :
    patchStyle constantsTables.isUnitlessNumber
        (JSVal.style [("a", StyleV.str "1px"), ("b", StyleV.str "2px")])
        (JSVal.style [("a", StyleV.str "1px"), ("c", StyleV.str "3px")]) emptyDom
      = [Effect.setStyleKey "c" (StyleV.str "3px"),
         Effect.setStyleKey "b" (StyleV.str "")]
    ∧ ((patchStyle constantsTables.isUnitlessNumber
        (JSVal.style [("a", StyleV.str "1px"), ("b", StyleV.str "2px")])
        (JSVal.style [("a", StyleV.str "1px"), ("c", StyleV.str "3px")]) emptyDom).all
        (fun e =>
          match e with
          | Effect.setStyleKey k _ => k != "a"
          | _ => true)) = true := by
  constructor
  · rfl
  · rfl

/-- Claim C10: `patchEvent` leaves the node's live event slot unchanged
whenever the handler stored there carries a truthy `wrapped` marker — not
only when the next value is absent/null but also when it is a plain
function, which is silently not installed. -/
theorem c10_wrapped_handler_not_overwritten (name : String)
    (lastValue nextValue : JSVal) (dom : DomState) (k : Nat)
    (hdom : dom.props (jsToLower name) = JSVal.wrappedFunc k)
    (hnext : isNullOrUndef nextValue = true ∨ isFunction nextValue = true) :
    patchEvent name lastValue nextValue dom = [] := by
  rcases hnext with hn | hn <;>
    · cases nextValue <;>
        simp_all [patchEvent, isFunction, isNullOrUndef, truthy, getField]

/-- Witness for C10: a wrapped handler in the slot survives both a plain
function and a null next value. -/
theorem c10_wrapped_handler_not_overwritten_witness :
    patchEvent "onClick" JSVal.null (JSVal.func 1)
        { emptyDom with props := updateFn emptyDom.props "onclick" (JSVal.wrappedFunc 0) }
      = []
    ∧ patchEvent "onClick" JSVal.null JSVal.null
        { emptyDom with props := updateFn emptyDom.props "onclick" (JSVal.wrappedFunc 0) }
      = [] :=
  ⟨c10_wrapped_handler_not_overwritten "onClick" JSVal.null (JSVal.func 1) _ 0
      (by decide) (Or.inr (by decide)),
   c10_wrapped_handler_not_overwritten "onClick" JSVal.null JSVal.null _ 0
      (by decide) (Or.inl (by decide))⟩

/-- Claim C4: when the raw-HTML payload changes (previous html differs
from next html, and the node's actual current markup also differs from the
next string), `patchProp` releases the recorded prior child representation
(all children or the single child depending on the recorded shape), marks
it invalid, and only then — strictly after — assigns the new html string
as the node's raw content: the innerHTML write is the final effect of the
trace. -/
theorem c4_raw_html_release_before_write (t : Tables)
    (lastValue nextValue : JSVal) (dom : DomState)
    (isSVG hasControlledValue : Bool) (vn : VNode)
    (hdeleg : t.delegatedEvents.contains "dangerouslySetInnerHTML" = false)
    (hskip : t.skipProps.contains "dangerouslySetInnerHTML" = false)
    (hbool : t.booleanProps.contains "dangerouslySetInnerHTML" = false)
    (hstrict : t.strictProps.contains "dangerouslySetInnerHTML" = false)
    (hne : lastValue ≠ nextValue)
    (hnn : isNullOrUndef nextValue = false)
    (hh : htmlOf lastValue ≠ htmlOf nextValue)
    (hs : isSameInnerHTML dom (htmlOf nextValue) = false) :
    patchProp t "dangerouslySetInnerHTML" lastValue nextValue dom isSVG
        hasControlledValue (some vn)
      = (if vn.childFlags &&& ChildFlags.MultipleChildren ≠ 0 then
           [Effect.unmountAll vn.children]
         else if vn.childFlags &&& ChildFlags.HasVNodeChildren ≠ 0 then
           [Effect.unmountOne vn.children]
         else [])
        ++ [Effect.setVNodeChildrenNull,
            Effect.setVNodeChildFlags ChildFlags.HasInvalidChildren,
            Effect.setInnerHTML (htmlOf nextValue)]
    ∧ ∃ pre,
        patchProp t "dangerouslySetInnerHTML" lastValue nextValue dom isSVG
            hasControlledValue (some vn)
          = pre ++ [Effect.setInnerHTML (htmlOf nextValue)] := by
  have hev : isAttrAnEvent "dangerouslySetInnerHTML" = false := by decide
  have hv : ("dangerouslySetInnerHTML" : String) ≠ "value" := by decide
  have hst : ("dangerouslySetInnerHTML" : String) ≠ "style" := by decide
  simp at hdeleg hskip hbool hstrict
  have hmain :
      patchProp t "dangerouslySetInnerHTML" lastValue nextValue dom isSVG
          hasControlledValue (some vn)
        = (if vn.childFlags &&& ChildFlags.MultipleChildren ≠ 0 then
             [Effect.unmountAll vn.children]
           else if vn.childFlags &&& ChildFlags.HasVNodeChildren ≠ 0 then
             [Effect.unmountOne vn.children]
           else [])
          ++ [Effect.setVNodeChildrenNull,
              Effect.setVNodeChildFlags ChildFlags.HasInvalidChildren,
              Effect.setInnerHTML (htmlOf nextValue)] := by
    simp [patchProp, hne, hdeleg, hskip, hbool, hstrict, hev, hv, hst, hnn,
      hh, hs, isNullOrUndef_htmlOf]
  refine ⟨hmain,
    (if vn.childFlags &&& ChildFlags.MultipleChildren ≠ 0 then
       [Effect.unmountAll vn.children]
     else if vn.childFlags &&& ChildFlags.HasVNodeChildren ≠ 0 then
       [Effect.unmountOne vn.children]
     else [])
      ++ [Effect.setVNodeChildrenNull,
          Effect.setVNodeChildFlags ChildFlags.HasInvalidChildren], ?_⟩
  rw [hmain]
  simp

/-- Witness for C4: changing the payload from `<p>a</p>` to `<p>b</p>`
over a recorded single-child representation releases that child, marks the
representation invalid, and writes the markup last. -/
theorem c4_raw_html_release_before_write_witness :
    patchProp constantsTables "dangerouslySetInnerHTML"
        (JSVal.htmlObj (JSVal.str "<p>a</p>"))
        (JSVal.htmlObj (JSVal.str "<p>b</p>")) emptyDom false false
        (some ⟨ChildFlags.HasVNodeChildren, 7⟩)
      = [Effect.unmountOne 7, Effect.setVNodeChildrenNull,
         Effect.setVNodeChildFlags ChildFlags.HasInvalidChildren,
         Effect.setInnerHTML (JSVal.str "<p>b</p>")] := by
  have h := (c4_raw_html_release_before_write constantsTables
    (JSVal.htmlObj (JSVal.str "<p>a</p>")) (JSVal.htmlObj (JSVal.str "<p>b</p>"))
    emptyDom false false ⟨ChildFlags.HasVNodeChildren, 7⟩
    (by decide) (by decide) (by decide) (by decide)
    (by decide) (by decide) (by decide) (by decide)).1
  simpa using h

/-- Claim C1 (amended): for property names outside the asymmetric removal
categories — not `value`, not the raw-HTML marker, not skip-, boolean- or
strict-classified (and `style` not registered as a delegated event) — and a
non-null previous value, `removeProp` performs exactly the host mutation
that `patchProp` with next value null performs; in particular every
delegated-event name is deregistered through the delegation subsystem by
both. -/
theorem c1_removal_matches_update_to_null (t : Tables) (prop : String)
    (lastValue : JSVal) (dom : DomState) (isSVG hasControlledValue : Bool)
    (lastVNode : Option VNode) (flags : Nat)
    (hl : lastValue ≠ JSVal.null)
    (hv : prop ≠ "value")
    (hhtml : prop ≠ "dangerouslySetInnerHTML")
    (hskip : t.skipProps.contains prop = false)
    (hbool : t.booleanProps.contains prop = false)
    (hstrict : t.strictProps.contains prop = false)
    (hsd : prop = "style" → t.delegatedEvents.contains prop = false) :
    removeProp t prop lastValue dom flags
      = patchProp t prop lastValue JSVal.null dom isSVG hasControlledValue lastVNode
    ∧ (t.delegatedEvents.contains prop = true →
        removeProp t prop lastValue dom flags
          = [Effect.handleEvent prop JSVal.null]) := by
  have hsp : prop ∉ t.skipProps := by simpa using hskip
  have hb : prop ∉ t.booleanProps := by simpa using hbool
  have hst : prop ∉ t.strictProps := by simpa using hstrict
  constructor
  · by_cases hd : prop ∈ t.delegatedEvents
    · have hns : prop ≠ "style" := by
        intro h
        have := hsd h
        simp at this
        exact this hd
      simp [removeProp, patchProp, hv, hns, hd, hl]
    · by_cases he : isAttrAnEvent prop = true
      · have hns : prop ≠ "style" := by
          intro h
          rw [h] at he
          exact absurd he (by decide)
        simp [removeProp, patchProp, hv, hns, hd, he, hl, hhtml, hsp, hb, hst]
      · have he' : isAttrAnEvent prop = false := by simpa using he
        by_cases hs : prop = "style"
        · subst hs
          simp [removeProp, patchProp, hd, hsp, hb, hst, hl, he', isNullOrUndef]
        · simp [removeProp, patchProp, hv, hs, hd, he', hsp, hb, hst, hl,
            hhtml, isNullOrUndef]
  · intro hd'
    have hd : prop ∈ t.delegatedEvents := by simpa using hd'
    have hns : prop ≠ "style" := by
      intro h
      have := hsd h
      simp at this
      exact this hd
    simp [removeProp, hv, hns, hd]

/-- Counterexample to Claim C1 as frozen: for the raw-HTML marker name,
removal clears the node's text content while update-to-null removes an
attribute of that name — the two entry points do not perform the same host
mutation for every property name. -/
theorem c1_counterexample :
    removeProp constantsTables "dangerouslySetInnerHTML"
        (JSVal.htmlObj (JSVal.str "<p>a</p>")) emptyDom 0
      ≠ patchProp constantsTables "dangerouslySetInnerHTML"
          (JSVal.htmlObj (JSVal.str "<p>a</p>")) JSVal.null emptyDom
          false false none := by
  decide

/-- Witness for amended C1 at a delegated-event name. -/
theorem c1_removal_matches_update_to_null_witness :
    removeProp constantsTables "onClick" (JSVal.func 3) emptyDom 0
      = patchProp constantsTables "onClick" (JSVal.func 3) JSVal.null emptyDom
          false false none
    ∧ removeProp constantsTables "onClick" (JSVal.func 3) emptyDom 0
      = [Effect.handleEvent "onClick" JSVal.null] := by
  have h := c1_removal_matches_update_to_null constantsTables "onClick"
    (JSVal.func 3) emptyDom false false none 0
    (by decide) (by decide) (by decide) (by decide) (by decide) (by decide)
    (fun hcontra => absurd hcontra (by decide))
  exact ⟨h.1, h.2 (by decide)⟩

/-- Claim C2 (amended): for every boolean-classified property name and
next value, provided the previous value differs from the next value (the
reconciler's top-level no-op guard), `patchProp` leaves the node's live
property — under the lower-cased name for `autoFocus`, the name itself
otherwise — equal to the boolean coercion of the next value, regardless of
the previous value. -/
theorem c2_boolean_prop_coercion (t : Tables) (prop : String)
    (lastValue nextValue : JSVal) (dom : DomState)
    (isSVG hasControlledValue : Bool) (lastVNode : Option VNode)
    (hbool : t.booleanProps.contains prop = true)
    (hdeleg : t.delegatedEvents.contains prop = false)
    (hskip : t.skipProps.contains prop = false)
    (hcv : ¬ (hasControlledValue = true ∧ prop = "value"))
    (hne : lastValue ≠ nextValue) :
    patchProp t prop lastValue nextValue dom isSVG hasControlledValue lastVNode
      = [Effect.setProp (if prop = "autoFocus" then jsToLower prop else prop)
          (JSVal.bool (truthy nextValue))]
    ∧ (applyEffects dom
        (patchProp t prop lastValue nextValue dom isSVG hasControlledValue lastVNode)).props
        (if prop = "autoFocus" then jsToLower prop else prop)
      = JSVal.bool (truthy nextValue) := by
  have hb : prop ∈ t.booleanProps := by simpa using hbool
  have hd : prop ∉ t.delegatedEvents := by simpa using hdeleg
  have hsp : prop ∉ t.skipProps := by simpa using hskip
  have h1 : patchProp t prop lastValue nextValue dom isSVG hasControlledValue lastVNode
      = [Effect.setProp (if prop = "autoFocus" then jsToLower prop else prop)
          (JSVal.bool (truthy nextValue))] := by
    simp [patchProp, hne, hb, hd, hsp, hcv]
  exact ⟨h1, by rw [h1]; exact props_after_setProp dom _ _⟩

/-- Counterexample to Claim C2 as frozen: with previous value equal to the
next value (`true` to `true` on `checked`) the top-level guard suppresses
the branch, so a node whose live property was not already `!!v` keeps its
stale value — the claim's "regardless of prevAny" fails when prevAny
equals v. -/
theorem c2_counterexample :
    (applyEffects emptyDom
        (patchProp constantsTables "checked" (JSVal.bool true) (JSVal.bool true)
          emptyDom false false none)).props "checked"
      ≠ JSVal.bool (truthy (JSVal.bool true)) := by
  decide

/-- Witness for amended C2: patching `autoFocus` from null to a truthy
number sets the live `autofocus` property to true. -/
theorem c2_boolean_prop_coercion_witness :
    patchProp constantsTables "autoFocus" JSVal.null (JSVal.num 5) emptyDom
        false false none
      = [Effect.setProp "autofocus" (JSVal.bool true)]
    ∧ (applyEffects emptyDom
        (patchProp constantsTables "autoFocus" JSVal.null (JSVal.num 5) emptyDom
          false false none)).props "autofocus"
      = JSVal.bool true := by
  have h := c2_boolean_prop_coercion constantsTables "autoFocus" JSVal.null
    (JSVal.num 5) emptyDom false false none
    (by decide) (by decide) (by decide) (by decide) (by decide)
  have e : (if ("autoFocus" : String) = "autoFocus"
      then jsToLower "autoFocus" else "autoFocus") = "autofocus" := by decide
  have e2 : JSVal.bool (truthy (JSVal.num 5)) = JSVal.bool true := by decide
  rw [e, e2] at h
  exact h

theorem strict_branch_trace (t : Tables) (prop : String)
    (lastValue nextValue : JSVal) (d : DomState)
    (isSVG hasControlledValue : Bool) (lastVNode : Option VNode)
    (hstrict : t.strictProps.contains prop = true)
    (hdeleg : t.delegatedEvents.contains prop = false)
    (hskip : t.skipProps.contains prop = false)
    (hbool : t.booleanProps.contains prop = false)
    (hcv : ¬ (hasControlledValue = true ∧ prop = "value"))
    (hne : lastValue ≠ nextValue) :
    patchProp t prop lastValue nextValue d isSVG hasControlledValue lastVNode
      = if d.props prop = (if isNullOrUndef nextValue then JSVal.str "" else nextValue)
        then []
        else [Effect.setProp prop
          (if isNullOrUndef nextValue then JSVal.str "" else nextValue)] := by
  have hs : prop ∈ t.strictProps := by simpa using hstrict
  have hd : prop ∉ t.delegatedEvents := by simpa using hdeleg
  have hsp : prop ∉ t.skipProps := by simpa using hskip
  have hb : prop ∉ t.booleanProps := by simpa using hbool
  simp only [patchProp]
  rw [if_pos hne]
  simp [hd, hsp, hb, hs, hcv]

/-- Claim C3 (amended): for a strict-assigned property, applying
`patchProp` with the same next value twice in a row performs at most one
underlying host property write — exactly one when the node's live value
initially differs from the null-coalesced next value, and none at all when
it was already equal; the second application never writes (it reads the
live value back and finds it equal). -/
theorem c3_strict_write_idempotent (t : Tables) (prop : String)
    (lastValue nextValue : JSVal) (dom : DomState)
    (isSVG hasControlledValue : Bool) (lastVNode : Option VNode)
    (hstrict : t.strictProps.contains prop = true)
    (hdeleg : t.delegatedEvents.contains prop = false)
    (hskip : t.skipProps.contains prop = false)
    (hbool : t.booleanProps.contains prop = false)
    (hcv : ¬ (hasControlledValue = true ∧ prop = "value"))
    (hne : lastValue ≠ nextValue) :
    patchProp t prop lastValue nextValue
        (applyEffects dom
          (patchProp t prop lastValue nextValue dom isSVG hasControlledValue lastVNode))
        isSVG hasControlledValue lastVNode
      = []
    ∧ countWrites
        (patchProp t prop lastValue nextValue dom isSVG hasControlledValue lastVNode
          ++ patchProp t prop lastValue nextValue
              (applyEffects dom
                (patchProp t prop lastValue nextValue dom isSVG hasControlledValue lastVNode))
              isSVG hasControlledValue lastVNode)
      = if dom.props prop = (if isNullOrUndef nextValue then JSVal.str "" else nextValue)
        then 0 else 1 := by
  have h1 := strict_branch_trace t prop lastValue nextValue dom isSVG
    hasControlledValue lastVNode hstrict hdeleg hskip hbool hcv hne
  by_cases hdp : dom.props prop
      = (if isNullOrUndef nextValue then JSVal.str "" else nextValue)
  · rw [if_pos hdp] at h1
    have h2 : patchProp t prop lastValue nextValue
        (applyEffects dom
          (patchProp t prop lastValue nextValue dom isSVG hasControlledValue lastVNode))
        isSVG hasControlledValue lastVNode = [] := by
      rw [h1]
      have h3 := strict_branch_trace t prop lastValue nextValue
        (applyEffects dom []) isSVG hasControlledValue lastVNode
        hstrict hdeleg hskip hbool hcv hne
      rw [h3]
      exact if_pos hdp
    refine ⟨h2, ?_⟩
    rw [h2, h1, if_pos hdp]
    rfl
  · rw [if_neg hdp] at h1
    have h2 : patchProp t prop lastValue nextValue
        (applyEffects dom
          (patchProp t prop lastValue nextValue dom isSVG hasControlledValue lastVNode))
        isSVG hasControlledValue lastVNode = [] := by
      rw [h1]
      have h3 := strict_branch_trace t prop lastValue nextValue
        (applyEffects dom
          [Effect.setProp prop
            (if isNullOrUndef nextValue then JSVal.str "" else nextValue)])
        isSVG hasControlledValue lastVNode
        hstrict hdeleg hskip hbool hcv hne
      rw [h3]
      exact if_pos (props_after_setProp dom prop _)
    refine ⟨h2, ?_⟩
    rw [h2, h1, if_neg hdp]
    rfl

/-- Counterexample to Claim C3 as frozen: when the node's live `volume`
property already equals the coalesced next value, the first application
already performs no write (read-before-write), so two applications in a
row perform zero host property writes, not exactly one. -/
theorem c3_counterexample :
    countWrites
      (patchProp constantsTables "volume" JSVal.null (JSVal.str "0.5")
          { emptyDom with props := updateFn emptyDom.props "volume" (JSVal.str "0.5") }
          false false none
        ++ patchProp constantsTables "volume" JSVal.null (JSVal.str "0.5")
            (applyEffects
              { emptyDom with props := updateFn emptyDom.props "volume" (JSVal.str "0.5") }
              (patchProp constantsTables "volume" JSVal.null (JSVal.str "0.5")
                { emptyDom with props := updateFn emptyDom.props "volume" (JSVal.str "0.5") }
                false false none))
            false false none)
      ≠ 1 := by
  decide

/-- Witness for amended C3: on a fresh node, patching `volume` twice with
"0.5" writes once; the second application emits nothing. -/
theorem c3_strict_write_idempotent_witness :
    patchProp constantsTables "volume" JSVal.null (JSVal.str "0.5")
        (applyEffects emptyDom
          (patchProp constantsTables "volume" JSVal.null (JSVal.str "0.5")
            emptyDom false false none))
        false false none
      = []
    ∧ countWrites
        (patchProp constantsTables "volume" JSVal.null (JSVal.str "0.5")
            emptyDom false false none
          ++ patchProp constantsTables "volume" JSVal.null (JSVal.str "0.5")
              (applyEffects emptyDom
                (patchProp constantsTables "volume" JSVal.null (JSVal.str "0.5")
                  emptyDom false false none))
              false false none)
      = 1 := by
  have h := c3_strict_write_idempotent constantsTables "volume" JSVal.null
    (JSVal.str "0.5") emptyDom false false none
    (by decide) (by decide) (by decide) (by decide) (by decide) (by decide)
  refine ⟨h.1, ?_⟩
  have h2 := h.2
  rw [if_neg (by decide)] at h2
  exact h2
